import Mathlib

/-!
Shallow embedding of the screen-session / layout-distribution core of
`src/app.py` (web-kiosk-screen).

Modelling conventions:

* Python's two module-level dicts `screens` and `content_layouts` are modelled
  as insertion-ordered association lists with unique keys (matching Python 3.7+
  dict semantics); `screens.items()` iteration order is list order.
* `uuid.uuid4()` is modelled as a fresh-value supply: the state carries a
  counter `uuidCtr` and each draw takes the current counter value (as a `Nat`
  for widget ids, rendered to a `String` for generated screen ids) and bumps
  the counter.  Python evaluates default arguments of `dict.get(k, default)`
  eagerly, so every such call site draws from the supply even when the value
  is discarded; the model reproduces those draws.
* `datetime.now().isoformat()` timestamps are modelled as `Nat` instants
  supplied by the environment with each inbound event.
* `request.sid` (the transport handle the socket library assigns to the
  calling connection) is a `Nat` parameter of each socket handler.
* `emit`/`socketio.emit` calls are modelled as a list of `OutEvent`s returned
  by the handler, in emission order.  A JSON payload key that a handler does
  not include is modelled as `none` in the corresponding `Option` field.
* Python truthiness of a possibly-missing string field (`if screen_id and …`)
  is modelled as "present and non-empty".  A layout payload is a structured
  document with both keys present, hence always truthy.
-/

namespace Kiosk

/-- Transport handle (socket id) assigned by the transport layer. -/
abbrev Sid := Nat

/-- Settings of the default clock widget (`get_default_layout` in app.py). -/
structure WidgetSettings where
  format : String
  showDate : Bool
  timezone : String
deriving DecidableEq

/-- A widget descriptor as built by `get_default_layout`. -/
structure Widget where
  id : Nat
  wtype : String
  x : Nat
  y : Nat
  width : Nat
  height : Nat
  settings : WidgetSettings
deriving DecidableEq

/-- A layout document: ordered widget list plus a background property. -/
structure LayoutDoc where
  widgets : List Widget
  background : String
deriving DecidableEq

/-- One entry of the `screens` dict:
`{name, last_seen, connected, sid, resolution}` (app.py line 24). -/
structure ScreenEntry where
  name : String
  connected : Bool
  last_seen : Nat
  sid : Option Sid
  resolution : String
deriving DecidableEq

/-- Payload of a `screen_status` fan-out event.  `none` in `name` or
`resolution` means the handler did not put that key in the JSON payload. -/
structure StatusPayload where
  id : String
  name : Option String
  connected : Bool
  last_seen : Nat
  resolution : Option String
deriving DecidableEq

/-- Outbound messages emitted by the handlers. -/
inductive OutEvent where
  | layout_update (room : Sid) (doc : LayoutDoc)
  | screen_status (p : StatusPayload)
  | push_success (screen_id : String)
  | push_error (screen_id : String) (error : String)
  | refresh (room : Sid)
  | screen_deleted (id : String)
  | screens_list (ids : List String)
deriving DecidableEq

/-- Association-list lookup: Python `d.get(k)` / `d[k]`. -/
def alGet {α : Type} : List (String × α) → String → Option α
  | [], _ => none
  | (k0, v0) :: t, k => if k0 = k then some v0 else alGet t k

/-- Association-list store: Python `d[k] = v` (update in place if the key is
present, append otherwise — preserving dict insertion order). -/
def alSet {α : Type} : List (String × α) → String → α → List (String × α)
  | [], k, v => [(k, v)]
  | (k0, v0) :: t, k, v =>
      if k0 = k then (k0, v) :: t else (k0, v0) :: alSet t k v

/-- Association-list delete: Python `del d[k]` (the result is the list
without the pairs keyed by `k`). -/
def alErase {α : Type} : List (String × α) → String → List (String × α)
  | [], _ => []
  | (k0, v0) :: t, k =>
      if k0 = k then alErase t k else (k0, v0) :: alErase t k

/-- The in-memory server state: the two module-level dicts plus the uuid
supply counter. -/
structure KioskState where
  screens : List (String × ScreenEntry)
  content_layouts : List (String × LayoutDoc)
  uuidCtr : Nat
deriving DecidableEq

/-- The state at process start: both dicts empty. -/
def initState : KioskState := { screens := [], content_layouts := [], uuidCtr := 0 }

/-- A draw from the uuid supply rendered as a string (for generated screen
ids: `str(uuid.uuid4())`). -/
def uuidStr (ctr : Nat) : String := "uuid-" ++ Nat.repr ctr

/-- `get_default_layout()` (app.py lines 33-52): one clock widget with a fresh
uuid, background `#1a1a2e`.  Takes and returns the uuid supply counter. -/
def get_default_layout (ctr : Nat) : LayoutDoc × Nat :=
  ({ widgets := [
       { id := ctr
         wtype := "clock"
         x := 50
         y := 50
         width := 300
         height := 150
         settings := { format := "24h", showDate := true, timezone := "local" } }]
     background := "#1a1a2e" },
   ctr + 1)

/-- `handle_register_screen` (app.py lines 223-259).  `screenId?` and
`resolution?` are the optional `screen_id` / `resolution` payload fields;
`reqSid` is `request.sid`; `now` the current instant. -/
def handle_register_screen (st : KioskState) (reqSid : Sid) (now : Nat)
    (screenId? : Option String) (resolution? : Option String) :
    KioskState × List OutEvent :=
  -- data.get('screen_id', str(uuid.uuid4())): the default uuid is drawn
  -- eagerly even when the field is present.
  let ctr1 := st.uuidCtr + 1
  let screen_id := screenId?.getD (uuidStr st.uuidCtr)
  let resolution := resolution?.getD "Unknown"
  match alGet st.screens screen_id with
  | none =>
      let entry : ScreenEntry :=
        { name := "Screen " ++ screen_id.take 8
          connected := true
          last_seen := now
          sid := some reqSid
          resolution := resolution }
      let scr1 := alSet st.screens screen_id entry
      let cl1 := alSet st.content_layouts screen_id (get_default_layout ctr1).1
      let ctr2 := (get_default_layout ctr1).2
      -- content_layouts.get(screen_id, get_default_layout()): eager default
      -- draw; the stored document (just written) is the one sent.
      let layout := (alGet cl1 screen_id).getD (get_default_layout ctr2).1
      let ctr3 := (get_default_layout ctr2).2
      ({ screens := scr1, content_layouts := cl1, uuidCtr := ctr3 },
       [OutEvent.layout_update reqSid layout,
        OutEvent.screen_status
          { id := screen_id
            name := some entry.name
            connected := true
            last_seen := entry.last_seen
            resolution := some resolution }])
  | some e =>
      let entry : ScreenEntry :=
        { e with connected := true, last_seen := now,
                 sid := some reqSid, resolution := resolution }
      let scr1 := alSet st.screens screen_id entry
      -- content_layouts.get(screen_id, get_default_layout()): eager default
      -- draw even though a known screen always has a stored document.
      let layout := (alGet st.content_layouts screen_id).getD
        (get_default_layout ctr1).1
      let ctr3 := (get_default_layout ctr1).2
      ({ screens := scr1, content_layouts := st.content_layouts, uuidCtr := ctr3 },
       [OutEvent.layout_update reqSid layout,
        OutEvent.screen_status
          { id := screen_id
            name := some entry.name
            connected := true
            last_seen := entry.last_seen
            resolution := some resolution }])

/-- `handle_disconnect`'s scan over `screens.items()` (app.py lines 210-220):
the first entry whose `sid` equals the disconnecting `request.sid` gets
`connected = False` and a refreshed `last_seen`, one `screen_status` event is
emitted (with only `id`, `connected`, `last_seen` keys), and the loop breaks.
The entry's `sid` field is not touched. -/
def markFirstWithSid (l : List (String × ScreenEntry)) (s : Sid) (now : Nat) :
    List (String × ScreenEntry) × List OutEvent :=
  match l with
  | [] => ([], [])
  | (k, e) :: t =>
      if e.sid = some s then
        ((k, { e with connected := false, last_seen := now }) :: t,
         [OutEvent.screen_status
            { id := k, name := none, connected := false,
              last_seen := now, resolution := none }])
      else
        let r := markFirstWithSid t s now
        ((k, e) :: r.1, r.2)

/-- `handle_disconnect` (app.py lines 205-220). -/
def handle_disconnect (st : KioskState) (reqSid : Sid) (now : Nat) :
    KioskState × List OutEvent :=
  let r := markFirstWithSid st.screens reqSid now
  ({ st with screens := r.1 }, r.2)

/-- `handle_heartbeat` (app.py lines 262-269): refresh `last_seen`, force
`connected = True` and rebind `sid` if the id is known; emits nothing. -/
def handle_heartbeat (st : KioskState) (reqSid : Sid) (now : Nat)
    (screenId? : Option String) : KioskState × List OutEvent :=
  match screenId? with
  | none => (st, [])
  | some s =>
      if s = "" then (st, [])
      else
        match alGet st.screens s with
        | none => (st, [])
        | some e =>
            ({ st with screens :=
                (alSet st.screens s
                  { e with last_seen := now, connected := true,
                           sid := some reqSid }) },
             [])

/-- `handle_push_layout` (app.py lines 280-292): store the layout, then
deliver it if the screen is known and its `sid` is truthy, else reply
`push_error`.  A missing/empty `screen_id` or missing layout drops the event
with no mutation. -/
def handle_push_layout (st : KioskState) (screenId? : Option String)
    (layout? : Option LayoutDoc) : KioskState × List OutEvent :=
  match screenId?, layout? with
  | some s, some l =>
      if s = "" then (st, [])
      else
        let st1 := { st with content_layouts := alSet st.content_layouts s l }
        match alGet st1.screens s with
        | some e =>
            match e.sid with
            | some room =>
                (st1, [OutEvent.layout_update room l, OutEvent.push_success s])
            | none =>
                (st1, [OutEvent.push_error s "Screen not connected"])
        | none => (st1, [OutEvent.push_error s "Screen not connected"])
  | _, _ => (st, [])

/-- `handle_refresh_screen` (app.py lines 295-300). -/
def handle_refresh_screen (st : KioskState) (screenId? : Option String) :
    KioskState × List OutEvent :=
  match screenId? with
  | none => (st, [])
  | some s =>
      if s = "" then (st, [])
      else
        match alGet st.screens s with
        | some e =>
            match e.sid with
            | some room => (st, [OutEvent.refresh room])
            | none => (st, [])
        | none => (st, [])

/-- `handle_join_dashboard` (app.py lines 272-277): reply with the list of
known screen ids. -/
def handle_join_dashboard (st : KioskState) : KioskState × List OutEvent :=
  (st, [OutEvent.screens_list (st.screens.map fun p => p.1)])

/-- `update_screen` (HTTP PUT, app.py lines 113-123): rename if the id is
known and the payload has a `name` field.  The `Bool` is success vs 404. -/
def update_screen (st : KioskState) (screen_id : String) (name? : Option String) :
    KioskState × Bool :=
  match alGet st.screens screen_id with
  | none => (st, false)
  | some e =>
      match name? with
      | none => (st, true)
      | some n =>
          ({ st with screens := alSet st.screens screen_id { e with name := n } },
           true)

/-- `delete_screen` (HTTP DELETE, app.py lines 126-140): remove the entry and
its layout, fan out `screen_deleted`.  The `Bool` is success vs 404. -/
def delete_screen (st : KioskState) (screen_id : String) :
    KioskState × List OutEvent × Bool :=
  match alGet st.screens screen_id with
  | none => (st, [], false)
  | some _ =>
      ({ st with screens := alErase st.screens screen_id,
                 content_layouts := alErase st.content_layouts screen_id },
       [OutEvent.screen_deleted screen_id], true)

/-- `get_layout` (HTTP GET, app.py lines 143-147):
`content_layouts.get(screen_id, get_default_layout())` — the default is
constructed (drawing a uuid) on every call and returned only when no document
is stored; the store itself is never written. -/
def get_layout (st : KioskState) (screen_id : String) : LayoutDoc × KioskState :=
  let (defl, ctr1) := get_default_layout st.uuidCtr
  ((alGet st.content_layouts screen_id).getD defl, { st with uuidCtr := ctr1 })

/-- `update_layout` (HTTP PUT, app.py lines 150-160): store wholesale, then
push to the screen when it is known with a truthy `sid`. -/
def update_layout (st : KioskState) (screen_id : String) (doc : LayoutDoc) :
    KioskState × List OutEvent :=
  let st1 := { st with content_layouts := alSet st.content_layouts screen_id doc }
  match alGet st1.screens screen_id with
  | some e =>
      match e.sid with
      | some room => (st1, [OutEvent.layout_update room doc])
      | none => (st1, [])
  | none => (st1, [])

/-- The alphabet of inbound events that mutate or read the core state. -/
inductive Event where
  | register (reqSid : Sid) (now : Nat) (screenId? : Option String)
      (resolution? : Option String)
  | heartbeat (reqSid : Sid) (now : Nat) (screenId? : Option String)
  | disconnect (reqSid : Sid) (now : Nat)
  | pushLayout (screenId? : Option String) (layout? : Option LayoutDoc)
  | refreshScreen (screenId? : Option String)
  | joinDashboard
  | httpRename (screenId : String) (name? : Option String)
  | httpDelete (screenId : String)
  | httpGetLayout (screenId : String)
  | httpPutLayout (screenId : String) (doc : LayoutDoc)
deriving DecidableEq

/-- Dispatch one inbound event to its handler. -/
def applyEvent (st : KioskState) (ev : Event) : KioskState × List OutEvent :=
  match ev with
  | .register reqSid now screenId? resolution? =>
      handle_register_screen st reqSid now screenId? resolution?
  | .heartbeat reqSid now screenId? => handle_heartbeat st reqSid now screenId?
  | .disconnect reqSid now => handle_disconnect st reqSid now
  | .pushLayout screenId? layout? => handle_push_layout st screenId? layout?
  | .refreshScreen screenId? => handle_refresh_screen st screenId?
  | .joinDashboard => handle_join_dashboard st
  | .httpRename screenId name? =>
      let r := update_screen st screenId name?
      (r.1, [])
  | .httpDelete screenId =>
      let r := delete_screen st screenId
      (r.1, r.2.1)
  | .httpGetLayout screenId => ((get_layout st screenId).2, [])
  | .httpPutLayout screenId doc => update_layout st screenId doc

/-- Run a sequence of events from a given state. -/
def runFrom (st : KioskState) (es : List Event) : KioskState :=
  es.foldl (fun s e => (applyEvent s e).1) st

/-- Run a sequence of events from process start. -/
def run (es : List Event) : KioskState := runFrom initState es

/-- Is an outbound event a `screen_status` fan-out? -/
def isStatusEvent : OutEvent → Bool
  | .screen_status _ => true
  | _ => false

/-- A `screen_status` event carries the full snapshot (both the `name` and
the `resolution` keys are present); vacuously true of other events. -/
def statusHasFullFields : OutEvent → Bool
  | .screen_status p => p.name.isSome && p.resolution.isSome
  | _ => true

/-- A `screen_status` event lacks both the `name` and the `resolution` keys;
vacuously true of other events. -/
def statusBare : OutEvent → Bool
  | .screen_status p => p.name.isNone && p.resolution.isNone
  | _ => true

/-- The structural shape of a widget: everything but its identity. -/
def widgetShape (w : Widget) : String × Nat × Nat × Nat × Nat × WidgetSettings :=
  (w.wtype, w.x, w.y, w.width, w.height, w.settings)

/-- Every entry of the registry has an assigned (non-null) `sid`. -/
def sidsAssigned (st : KioskState) : Prop :=
  ∀ k e, alGet st.screens k = some e → e.sid.isSome = true

/-- A concrete layout document used in concrete runs (the spec's end-to-end
scenario pushes a document with no widgets and background "#000"). -/
def docBlack : LayoutDoc := { widgets := [], background := "#000" }

/-- Concrete trace: screen "A" registers from transport 1 at time 0. -/
def esA : List Event := [Event.register 1 0 (some "A") (some "1920x1080")]

/-- Concrete trace: screen "A" registers, then its transport disconnects. -/
def esAdisc : List Event :=
  [Event.register 1 0 (some "A") (some "1920x1080"), Event.disconnect 1 1]

/-- Concrete trace: transport 7 registers identity "A", then identity "B". -/
def esDup : List Event :=
  [Event.register 7 0 (some "A") none, Event.register 7 1 (some "B") none]

/-- The state right after `esA`. -/
def stA : KioskState := run esA

/-- The state right after `esAdisc`. -/
def stAdisc : KioskState := run esAdisc

/-- The entry of "A" in `stA`. -/
def entryA : ScreenEntry :=
  { name := "Screen A", connected := true, last_seen := 0, sid := some 1,
    resolution := "1920x1080" }

/-- The entry of "A" in `stAdisc`: disconnected but still holding its sid. -/
def entryAdisc : ScreenEntry :=
  { name := "Screen A", connected := false, last_seen := 1, sid := some 1,
    resolution := "1920x1080" }

/-! ## Association-list lemmas -/

theorem alGet_alSet_self {α : Type} (l : List (String × α)) (k : String) (v : α) :
    alGet (alSet l k v) k = some v := by
  induction l with
  | nil => simp [alGet, alSet]
  | cons p t ih =>
      obtain ⟨k0, v0⟩ := p
      by_cases h : k0 = k
      · simp [alSet, alGet, h]
      · simp [alSet, alGet, h, ih]

theorem alGet_alSet_ne {α : Type} (l : List (String × α)) (k k' : String) (v : α)
    (h : k ≠ k') : alGet (alSet l k v) k' = alGet l k' := by
  induction l with
  | nil => simp [alGet, alSet, fun hkk => h hkk]
  | cons p t ih =>
      obtain ⟨k0, v0⟩ := p
      by_cases h0 : k0 = k
      · subst h0
        simp [alSet, alGet, h]
      · by_cases h1 : k0 = k'
        · simp [alSet, alGet, h0, h1, Ne.symm h]
        · simp [alSet, alGet, h0, h1, ih]

theorem alGet_alSet_cases {α : Type} (l : List (String × α)) (k k' : String)
    (v e' : α) (h : alGet (alSet l k v) k' = some e') :
    e' = v ∨ alGet l k' = some e' := by
  by_cases hk : k = k'
  · subst hk
    rw [alGet_alSet_self] at h
    exact Or.inl (Option.some.inj h).symm
  · rw [alGet_alSet_ne l k k' v hk] at h
    exact Or.inr h

theorem alSet_of_get_eq {α : Type} (l : List (String × α)) (k : String) (v : α)
    (h : alGet l k = some v) : alSet l k v = l := by
  induction l with
  | nil => simp [alGet] at h
  | cons p t ih =>
      obtain ⟨k0, v0⟩ := p
      by_cases h0 : k0 = k
      · simp [alGet, h0] at h
        simp [alSet, h0, h]
      · simp [alGet, h0] at h
        simp [alSet, h0, ih h]

theorem alGet_alErase {α : Type} (l : List (String × α)) (kd k' : String) :
    alGet (alErase l kd) k' = if k' = kd then none else alGet l k' := by
  induction l with
  | nil => simp [alErase, alGet]
  | cons p t ih =>
      obtain ⟨k0, v0⟩ := p
      by_cases h0 : k0 = kd
      · subst h0
        by_cases h1 : k' = k0
        · subst h1
          simp [alErase, alGet, ih]
        · simp [alErase, alGet, h1, Ne.symm h1, ih]
      · by_cases h1 : k0 = k'
        · have h2 : ¬ k' = kd := fun h => h0 (h1.trans h)
          simp [alErase, alGet, h0, h1, h2]
        · by_cases h2 : k' = kd
          · subst h2
            simp [alErase, alGet, h0, h1, ih]
          · simp [alErase, alGet, h0, h1, h2, ih]

/-! ## Lemmas about the disconnect scan -/

theorem markFirstWithSid_no_match (l : List (String × ScreenEntry)) (s : Sid)
    (now : Nat) (h : ∀ p ∈ l, p.2.sid ≠ some s) :
    markFirstWithSid l s now = (l, []) := by
  induction l with
  | nil => rfl
  | cons p t ih =>
      obtain ⟨k0, e0⟩ := p
      have h0 : e0.sid ≠ some s := h (k0, e0) (List.mem_cons_self _ _)
      have ht : ∀ q ∈ t, q.2.sid ≠ some s := fun q hq => h q (List.mem_cons_of_mem _ hq)
      simp [markFirstWithSid, h0, ih ht]

theorem markFirstWithSid_sid_eq (l : List (String × ScreenEntry)) (s : Sid)
    (now : Nat) (k : String) (e' : ScreenEntry)
    (h : alGet (markFirstWithSid l s now).1 k = some e') :
    ∃ e0, alGet l k = some e0 ∧ e'.sid = e0.sid := by
  induction l with
  | nil => simp [markFirstWithSid, alGet] at h
  | cons p t ih =>
      obtain ⟨k0, e0⟩ := p
      by_cases hs : e0.sid = some s
      · by_cases hk : k0 = k
        · simp [markFirstWithSid, hs, alGet, hk] at h
          exact ⟨e0, by simp [alGet, hk], by rw [← h]; exact hs.symm⟩
        · simp [markFirstWithSid, hs, alGet, hk] at h
          exact ⟨e', by simp [alGet, hk, h], rfl⟩
      · by_cases hk : k0 = k
        · simp [markFirstWithSid, hs, alGet, hk] at h
          exact ⟨e0, by simp [alGet, hk], by rw [← h]⟩
        · simp [markFirstWithSid, hs, alGet, hk] at h
          obtain ⟨e1, hget, hsid⟩ := ih h
          exact ⟨e1, by simp [alGet, hk, hget], hsid⟩

theorem markFirstWithSid_one_status (l : List (String × ScreenEntry)) (s : Sid)
    (now : Nat) (h : ∃ p ∈ l, p.2.sid = some s) :
    List.countP isStatusEvent (markFirstWithSid l s now).2 = 1 := by
  induction l with
  | nil => simp at h
  | cons p t ih =>
      obtain ⟨k0, e0⟩ := p
      by_cases hs : e0.sid = some s
      · simp [markFirstWithSid, hs, isStatusEvent]
      · obtain ⟨q, hq, hqs⟩ := h
        rcases List.mem_cons.mp hq with rfl | hq'
        · exact absurd hqs hs
        · simp only [markFirstWithSid, hs, if_neg hs]
          exact ih ⟨q, hq', hqs⟩

theorem markFirstWithSid_statusBare (l : List (String × ScreenEntry)) (s : Sid)
    (now : Nat) : (markFirstWithSid l s now).2.all statusBare = true := by
  induction l with
  | nil => rfl
  | cons p t ih =>
      obtain ⟨k0, e0⟩ := p
      by_cases hs : e0.sid = some s <;>
        simp [markFirstWithSid, hs, statusBare, ih]

/-! ## Frame facts about each handler's registry -/

theorem push_layout_screens_eq (st : KioskState) (s? : Option String)
    (l? : Option LayoutDoc) : (handle_push_layout st s? l?).1.screens = st.screens := by
  unfold handle_push_layout
  split
  · rename_i s l
    by_cases hs : s = ""
    · simp [hs]
    · simp only [if_neg hs]
      cases halGet : alGet st.screens s with
      | none => simp [halGet]
      | some e =>
          cases hsid : e.sid with
          | none => simp [halGet, hsid]
          | some room => simp [halGet, hsid]
  · rfl

theorem update_layout_screens_eq (st : KioskState) (s : String) (doc : LayoutDoc) :
    (update_layout st s doc).1.screens = st.screens := by
  unfold update_layout
  cases halGet : alGet st.screens s with
  | none => simp [halGet]
  | some e =>
      cases hsid : e.sid with
      | none => simp [halGet, hsid]
      | some room => simp [halGet, hsid]

theorem refresh_screen_state_eq (st : KioskState) (s? : Option String) :
    (handle_refresh_screen st s?).1 = st := by
  unfold handle_refresh_screen
  split
  · rfl
  · split
    · rfl
    · split
      · split <;> rfl
      · rfl

/-- Every handler keeps every registry entry's `sid` assigned (in fact every
handler that writes an entry writes a `some` sid, and none ever writes
`none`). -/
theorem sidsAssigned_applyEvent (st : KioskState) (ev : Event)
    (h : sidsAssigned st) : sidsAssigned (applyEvent st ev).1 := by
  cases ev with
  | register reqSid now screenId? resolution? =>
      intro k e hk
      simp only [applyEvent, handle_register_screen] at hk
      split at hk
      · rcases alGet_alSet_cases _ _ _ _ _ hk with rfl | hold
        · rfl
        · exact h _ _ hold
      · rcases alGet_alSet_cases _ _ _ _ _ hk with rfl | hold
        · rfl
        · exact h _ _ hold
  | heartbeat reqSid now screenId? =>
      intro k e hk
      simp only [applyEvent, handle_heartbeat] at hk
      split at hk
      · exact h _ _ hk
      · split at hk
        · exact h _ _ hk
        · split at hk
          · exact h _ _ hk
          · rcases alGet_alSet_cases _ _ _ _ _ hk with rfl | hold
            · rfl
            · exact h _ _ hold
  | disconnect reqSid now =>
      intro k e hk
      simp only [applyEvent, handle_disconnect] at hk
      obtain ⟨e0, hget, hsid⟩ := markFirstWithSid_sid_eq _ _ _ _ _ hk
      rw [hsid]
      exact h _ _ hget
  | pushLayout s? l? =>
      intro k e hk
      rw [applyEvent, push_layout_screens_eq] at hk
      exact h _ _ hk
  | refreshScreen s? =>
      intro k e hk
      rw [applyEvent, refresh_screen_state_eq] at hk
      exact h _ _ hk
  | joinDashboard => exact h
  | httpRename screenId name? =>
      intro k e hk
      cases hget : alGet st.screens screenId with
      | none =>
          simp only [applyEvent, update_screen, hget] at hk
          exact h _ _ hk
      | some e0 =>
          cases name? with
          | none =>
              simp only [applyEvent, update_screen, hget] at hk
              exact h _ _ hk
          | some n =>
              simp only [applyEvent, update_screen, hget] at hk
              rcases alGet_alSet_cases _ _ _ _ _ hk with rfl | hold
              · simpa using h _ _ hget
              · exact h _ _ hold
  | httpDelete screenId =>
      intro k e hk
      simp only [applyEvent, delete_screen] at hk
      split at hk
      · exact h _ _ hk
      · rw [alGet_alErase] at hk
        split at hk
        · exact absurd hk (by simp)
        · exact h _ _ hk
  | httpGetLayout screenId =>
      intro k e hk
      exact h _ _ hk
  | httpPutLayout screenId doc =>
      intro k e hk
      rw [applyEvent, update_layout_screens_eq] at hk
      exact h _ _ hk

theorem sidsAssigned_runFrom (es : List Event) (st : KioskState)
    (h : sidsAssigned st) : sidsAssigned (runFrom st es) := by
  induction es generalizing st with
  | nil => exact h
  | cons e t ih => exact ih _ (sidsAssigned_applyEvent st e h)

theorem sidsAssigned_run (es : List Event) : sidsAssigned (run es) :=
  sidsAssigned_runFrom es initState (by intro k e hk; simp [initState, alGet] at hk)

/-! ## Characterizations of registration and heartbeat -/

theorem register_new (st : KioskState) (reqSid : Sid) (now : Nat) (i : String)
    (res? : Option String) (hget : alGet st.screens i = none) :
    handle_register_screen st reqSid now (some i) res? =
      ({ screens := alSet st.screens i
           { name := "Screen " ++ i.take 8, connected := true, last_seen := now,
             sid := some reqSid, resolution := res?.getD "Unknown" },
         content_layouts := alSet st.content_layouts i
           (get_default_layout (st.uuidCtr + 1)).1,
         uuidCtr := st.uuidCtr + 3 },
       [OutEvent.layout_update reqSid (get_default_layout (st.uuidCtr + 1)).1,
        OutEvent.screen_status
          { id := i, name := some ("Screen " ++ i.take 8), connected := true,
            last_seen := now, resolution := some (res?.getD "Unknown") }]) := by
  simp [handle_register_screen, hget, get_default_layout, alGet_alSet_self]

theorem register_known (st : KioskState) (reqSid : Sid) (now : Nat) (i : String)
    (res? : Option String) (e0 : ScreenEntry) (hget : alGet st.screens i = some e0) :
    handle_register_screen st reqSid now (some i) res? =
      ({ screens := alSet st.screens i
           { e0 with connected := true, last_seen := now, sid := some reqSid,
                     resolution := res?.getD "Unknown" },
         content_layouts := st.content_layouts,
         uuidCtr := st.uuidCtr + 2 },
       [OutEvent.layout_update reqSid
          ((alGet st.content_layouts i).getD
            (get_default_layout (st.uuidCtr + 1)).1),
        OutEvent.screen_status
          { id := i, name := some e0.name, connected := true, last_seen := now,
            resolution := some (res?.getD "Unknown") }]) := by
  simp [handle_register_screen, hget, get_default_layout]

theorem heartbeat_no_events (st : KioskState) (reqSid : Sid) (now : Nat)
    (s? : Option String) : (handle_heartbeat st reqSid now s?).2 = [] := by
  unfold handle_heartbeat
  split
  · rfl
  · split
    · rfl
    · split <;> rfl

/-! ## Claim C1 -/

/-- C1 counterexample: after the reachable trace register("A" from transport
1) then disconnect(transport 1), the entry of "A" has `connected = false` yet
`sid = some 1` — the disconnect did not clear `activeConnection`, so the
claimed iff (connected ↔ sid non-null) is false at this state. -/
theorem C1_counterexample :
    ¬ (∀ e, alGet stAdisc.screens "A" = some e →
        (e.connected = true ↔ e.sid.isSome = true)) := by
  intro h
  have hiff := h entryAdisc (by decide)
  have : entryAdisc.connected = true := hiff.mpr (by decide)
  simp [entryAdisc] at this

/-- C1 (amended): in every reachable state every registry entry has an
assigned (non-null) `sid` — in particular `connected = true` implies
`activeConnection ≠ null` after every operation — but a transport disconnect
only flips `connected` and refreshes `last_seen`: it leaves every entry's
`activeConnection` exactly as it was, so the converse direction of the
claimed iff fails after a disconnect. -/
theorem C1_amended (es : List Event) (k : String) (e : ScreenEntry)
    (h : alGet (run es).screens k = some e)
    (st : KioskState) (dsid : Sid) (dnow : Nat) (k' : String) (e' : ScreenEntry)
    (h2 : alGet (handle_disconnect st dsid dnow).1.screens k' = some e') :
    e.sid.isSome = true
    ∧ ∃ e0, alGet st.screens k' = some e0 ∧ e'.sid = e0.sid := by
  constructor
  · exact sidsAssigned_run es k e h
  · exact markFirstWithSid_sid_eq _ _ _ _ _ h2

/-- Witness for `C1_amended` at the concrete trace `esAdisc`. -/
theorem C1_amended_witness :
    entryAdisc.sid.isSome = true
    ∧ ∃ e0, alGet stA.screens "A" = some e0 ∧ entryAdisc.sid = e0.sid :=
  C1_amended esAdisc "A" entryAdisc (by decide) stA 1 1 "A" entryAdisc (by decide)

/-! ## Claim C2 -/

/-- C2 counterexample: screen "A" is known and disconnected (its transport
disconnected), yet `push_layout` emits `layout_update` to the stale sid and
`push_success` — not the claimed `push_error` 'Screen not connected' —
because the handler tests the never-cleared `sid` field, which is truthy for
every known screen. -/
theorem C2_counterexample :
    (alGet stAdisc.screens "A").map (fun e => e.connected) = some false
    ∧ (handle_push_layout stAdisc (some "A") (some docBlack)).2 =
        [OutEvent.layout_update 1 docBlack, OutEvent.push_success "A"]
    ∧ OutEvent.push_error "A" "Screen not connected" ∉
        (handle_push_layout stAdisc (some "A") (some docBlack)).2 := by
  decide

/-- C2 (amended): `push_layout` always stores the document first (a
subsequent `get_layout` returns it, whether or not the identity is known or
connected) — storing and delivering are independent steps — and it replies
`push_error` 'Screen not connected' rather than raising; but that reply is
produced exactly when the identity has no registry entry (or an unset sid).
A known screen whose transport disconnected keeps its stale sid and
therefore receives `layout_update` + `push_success` instead. -/
theorem C2_amended (st : KioskState) (s : String) (l : LayoutDoc) (hs : s ≠ "") :
    alGet (handle_push_layout st (some s) (some l)).1.content_layouts s = some l
    ∧ (get_layout (handle_push_layout st (some s) (some l)).1 s).1 = l
    ∧ ((handle_push_layout st (some s) (some l)).2 =
          [OutEvent.push_error s "Screen not connected"]
        ↔ ∀ e, alGet st.screens s = some e → e.sid = none)
    ∧ (∀ e room, alGet st.screens s = some e → e.sid = some room →
        (handle_push_layout st (some s) (some l)).2 =
          [OutEvent.layout_update room l, OutEvent.push_success s]) := by
  cases hget : alGet st.screens s with
  | none =>
      have hpush : handle_push_layout st (some s) (some l) =
          ({ st with content_layouts := alSet st.content_layouts s l },
           [OutEvent.push_error s "Screen not connected"]) := by
        simp [handle_push_layout, hs, hget]
      rw [hpush]
      refine ⟨alGet_alSet_self _ _ _, ?_, ?_, ?_⟩
      · simp [get_layout, alGet_alSet_self]
      · simp [hget]
      · intro e room he _
        exact absurd he (by simp)
  | some e0 =>
      cases hsid : e0.sid with
      | none =>
          have hpush : handle_push_layout st (some s) (some l) =
              ({ st with content_layouts := alSet st.content_layouts s l },
               [OutEvent.push_error s "Screen not connected"]) := by
            simp [handle_push_layout, hs, hget, hsid]
          rw [hpush]
          refine ⟨alGet_alSet_self _ _ _, ?_, ?_, ?_⟩
          · simp [get_layout, alGet_alSet_self]
          · simp [hget, hsid]
          · intro e room he hroom
            cases Option.some.inj he
            rw [hsid] at hroom
            exact absurd hroom (by simp)
      | some room0 =>
          have hpush : handle_push_layout st (some s) (some l) =
              ({ st with content_layouts := alSet st.content_layouts s l },
               [OutEvent.layout_update room0 l, OutEvent.push_success s]) := by
            simp [handle_push_layout, hs, hget, hsid]
          rw [hpush]
          refine ⟨alGet_alSet_self _ _ _, ?_, ?_, ?_⟩
          · simp [get_layout, alGet_alSet_self]
          · simp [hget, hsid]
          · intro e room he hroom
            cases Option.some.inj he
            rw [hsid] at hroom
            cases Option.some.inj hroom
            rfl

/-- Witness for `C2_amended`: push to the known-but-disconnected screen "A"
of `stAdisc` (storage succeeds, the reply biconditional resolves to
`push_success` because the stale sid is still set). -/
theorem C2_amended_witness :
    alGet (handle_push_layout stAdisc (some "A") (some docBlack)).1.content_layouts "A"
      = some docBlack
    ∧ (get_layout (handle_push_layout stAdisc (some "A") (some docBlack)).1 "A").1
      = docBlack
    ∧ ((handle_push_layout stAdisc (some "A") (some docBlack)).2 =
          [OutEvent.push_error "A" "Screen not connected"]
        ↔ ∀ e, alGet stAdisc.screens "A" = some e → e.sid = none)
    ∧ (∀ e room, alGet stAdisc.screens "A" = some e → e.sid = some room →
        (handle_push_layout stAdisc (some "A") (some docBlack)).2 =
          [OutEvent.layout_update room docBlack, OutEvent.push_success "A"]) :=
  C2_amended stAdisc "A" docBlack (by decide)

/-! ## Claim C3 -/

/-- C3: last-register-wins.  After any `register_screen` call for identity
`i` — whatever the prior state, so in particular after the last call of any
sequence of registrations of `i` — the entry is connected, bound to the most
recent caller's transport, stamped with the call's time and reported
resolution; and repeating the same registration changes neither the registry
nor the layout store (idempotence). -/
theorem C3_register_last_wins (st : KioskState) (reqSid : Sid) (now : Nat)
    (i : String) (res? : Option String) :
    ∃ e, alGet (handle_register_screen st reqSid now (some i) res?).1.screens i
        = some e
      ∧ e.connected = true ∧ e.sid = some reqSid ∧ e.last_seen = now
      ∧ e.resolution = res?.getD "Unknown"
      ∧ (handle_register_screen (handle_register_screen st reqSid now (some i) res?).1
          reqSid now (some i) res?).1.screens
        = (handle_register_screen st reqSid now (some i) res?).1.screens
      ∧ (handle_register_screen (handle_register_screen st reqSid now (some i) res?).1
          reqSid now (some i) res?).1.content_layouts
        = (handle_register_screen st reqSid now (some i) res?).1.content_layouts := by
  cases hget : alGet st.screens i with
  | none =>
      rw [register_new st reqSid now i res? hget]
      refine ⟨_, alGet_alSet_self _ _ _, rfl, rfl, rfl, rfl, ?_, ?_⟩
      · rw [register_known _ reqSid now i res? _ (alGet_alSet_self _ _ _)]
        exact alSet_of_get_eq _ _ _ (alGet_alSet_self _ _ _)
      · rw [register_known _ reqSid now i res? _ (alGet_alSet_self _ _ _)]
  | some e0 =>
      rw [register_known st reqSid now i res? e0 hget]
      refine ⟨_, alGet_alSet_self _ _ _, rfl, rfl, rfl, rfl, ?_, ?_⟩
      · rw [register_known _ reqSid now i res? _ (alGet_alSet_self _ _ _)]
        exact alSet_of_get_eq _ _ _ (alGet_alSet_self _ _ _)
      · rw [register_known _ reqSid now i res? _ (alGet_alSet_self _ _ _)]

/-! ## Claim C4 -/

/-- C4: a heartbeat naming an unknown identity, and a transport disconnect
whose sid is bound to no registry entry (as for a never-registered identity),
are no-ops: the whole state — registry size and contents included — is
unchanged and nothing is emitted (and the total handlers raise nothing). -/
theorem C4_unknown_noop (st : KioskState) (reqSid dsid : Sid) (hnow dnow : Nat)
    (s : String) (h1 : alGet st.screens s = none)
    (h2 : ∀ p ∈ st.screens, p.2.sid ≠ some dsid) :
    handle_heartbeat st reqSid hnow (some s) = (st, [])
    ∧ handle_disconnect st dsid dnow = (st, []) := by
  constructor
  · unfold handle_heartbeat
    by_cases hs : s = "" <;> simp [hs, h1]
  · unfold handle_disconnect
    rw [markFirstWithSid_no_match _ _ _ h2]

/-- Witness for `C4_unknown_noop`: identity "B" was never registered in
`stA` and transport 99 is bound to no entry. -/
theorem C4_unknown_noop_witness :
    handle_heartbeat stA 5 3 (some "B") = (stA, [])
    ∧ handle_disconnect stA 99 3 = (stA, []) :=
  C4_unknown_noop stA 5 99 3 3 "B" (by decide) (by decide)

/-! ## Claim C5 -/

/-- C5 counterexample: in the reachable state `stAdisc` the screen "A" is
disconnected; a heartbeat then flips it back to connected — a
DISCONNECTED→CONNECTED liveness transition — yet the heartbeat handler emits
no `screen_status` (indeed no event at all), refuting "every transition
emits exactly one notifyStatus". -/
theorem C5_counterexample :
    (alGet stAdisc.screens "A").map (fun e => e.connected) = some false
    ∧ (alGet (handle_heartbeat stAdisc 2 2 (some "A")).1.screens "A").map
        (fun e => e.connected) = some true
    ∧ (handle_heartbeat stAdisc 2 2 (some "A")).2 = [] := by
  decide

/-- C5 (amended): registration emits exactly one `screen_status` fan-out
(whether or not it is a liveness transition), a transport disconnect whose
sid is bound to some entry emits exactly one, and a heartbeat never emits a
status event — even when it is the DISCONNECTED→CONNECTED transition. -/
theorem C5_amended (st1 : KioskState) (reqSid : Sid) (now : Nat)
    (sid? res? : Option String)
    (st2 : KioskState) (hbSid : Sid) (hnow : Nat) (hb? : Option String)
    (st3 : KioskState) (dsid : Sid) (dnow : Nat)
    (hmatch : ∃ p ∈ st3.screens, p.2.sid = some dsid) :
    List.countP isStatusEvent (handle_register_screen st1 reqSid now sid? res?).2 = 1
    ∧ (handle_heartbeat st2 hbSid hnow hb?).2 = []
    ∧ List.countP isStatusEvent (handle_disconnect st3 dsid dnow).2 = 1 := by
  refine ⟨?_, heartbeat_no_events st2 hbSid hnow hb?, ?_⟩
  · simp only [handle_register_screen]
    cases hget : alGet st1.screens (sid?.getD (uuidStr st1.uuidCtr)) with
    | none => simp [hget, isStatusEvent]
    | some e => simp [hget, isStatusEvent]
  · unfold handle_disconnect
    exact markFirstWithSid_one_status _ _ _ hmatch

/-- Witness for `C5_amended` at concrete states. -/
theorem C5_amended_witness :
    List.countP isStatusEvent
      (handle_register_screen initState 1 0 (some "A") (some "1920x1080")).2 = 1
    ∧ (handle_heartbeat stAdisc 2 2 (some "A")).2 = []
    ∧ List.countP isStatusEvent (handle_disconnect stA 1 1).2 = 1 :=
  C5_amended initState 1 0 (some "A") (some "1920x1080") stAdisc 2 2 (some "A")
    stA 1 1 (by decide)

/-! ## Claim C6 -/

/-- C6: `get_layout` after deleting a known screen returns the
freshly-constructed default document (built from the current uuid supply),
not the deleted one; likewise for a never-registered identity; and the fetch
itself never writes the layout store. -/
theorem C6_getLayout_default (st : KioskState) (i : String) (e : ScreenEntry)
    (hknown : alGet st.screens i = some e)
    (st2 : KioskState) (j : String) (hj : alGet st2.content_layouts j = none) :
    (get_layout (delete_screen st i).1 i).1 =
      (get_default_layout (delete_screen st i).1.uuidCtr).1
    ∧ (get_layout (delete_screen st i).1 i).2.content_layouts =
      (delete_screen st i).1.content_layouts
    ∧ (get_layout st2 j).1 = (get_default_layout st2.uuidCtr).1
    ∧ (get_layout st2 j).2.content_layouts = st2.content_layouts := by
  have hdel : (delete_screen st i).1.content_layouts = alErase st.content_layouts i := by
    simp [delete_screen, hknown]
  refine ⟨?_, rfl, ?_, rfl⟩
  · simp [get_layout, hdel, alGet_alErase]
  · simp [get_layout, hj]

/-- Witness for `C6_getLayout_default`: delete the known screen "A" of
`stA`; the never-registered identity is "B" in `initState`. -/
theorem C6_getLayout_default_witness :
    (get_layout (delete_screen stA "A").1 "A").1 =
      (get_default_layout (delete_screen stA "A").1.uuidCtr).1
    ∧ (get_layout (delete_screen stA "A").1 "A").2.content_layouts =
      (delete_screen stA "A").1.content_layouts
    ∧ (get_layout initState "B").1 = (get_default_layout initState.uuidCtr).1
    ∧ (get_layout initState "B").2.content_layouts = initState.content_layouts :=
  C6_getLayout_default stA "A" entryA (by decide) initState "B" (by decide)

/-! ## Claim C7 -/

/-- C7: two successive draws of the default layout both have background
"#1a1a2e" and exactly one clock widget of identical structural shape (type,
position, size, settings), but the two widget identities differ. -/
theorem C7_default_layout (c : Nat) :
    (get_default_layout c).1.background = "#1a1a2e"
    ∧ (get_default_layout (get_default_layout c).2).1.background = "#1a1a2e"
    ∧ (get_default_layout c).1.widgets.map widgetShape =
        (get_default_layout (get_default_layout c).2).1.widgets.map widgetShape
    ∧ (get_default_layout c).1.widgets.length = 1
    ∧ ((get_default_layout c).1.widgets.map fun w => w.wtype) = ["clock"]
    ∧ ((get_default_layout c).1.widgets.map fun w => w.id) ≠
        ((get_default_layout (get_default_layout c).2).1.widgets.map fun w => w.id) := by
  simp [get_default_layout, widgetShape]

/-! ## Claim C8 -/

/-- C8 counterexample: the `screen_status` event the disconnect handler fans
out for "A" carries only the id, connected flag and last_seen — the name and
resolution keys are absent — so not every `screen_status` event carries the
full snapshot fields. -/
theorem C8_counterexample :
    (handle_disconnect stA 1 1).2 =
      [OutEvent.screen_status
        { id := "A", name := none, connected := false, last_seen := 1,
          resolution := none }]
    ∧ (handle_disconnect stA 1 1).2.all statusHasFullFields = false := by
  decide

/-- C8 (amended): the `screen_status` events emitted on registration carry
the full snapshot fields (id, name, connected, lastSeen, resolution), but
the ones emitted on disconnect carry only id, connected and lastSeen — name
and resolution are absent from the payload. -/
theorem C8_amended (st1 : KioskState) (reqSid : Sid) (now : Nat)
    (sid? res? : Option String) (st2 : KioskState) (dsid : Sid) (dnow : Nat) :
    (handle_register_screen st1 reqSid now sid? res?).2.all statusHasFullFields = true
    ∧ (handle_disconnect st2 dsid dnow).2.all statusBare = true := by
  constructor
  · simp only [handle_register_screen]
    cases hget : alGet st1.screens (sid?.getD (uuidStr st1.uuidCtr)) with
    | none => simp [hget, statusHasFullFields]
    | some e => simp [hget, statusHasFullFields]
  · unfold handle_disconnect
    exact markFirstWithSid_statusBare _ _ _

/-! ## Claim C9 -/

/-- C9 counterexample: transport 7 registers identity "A" and then identity
"B"; in the resulting reachable state both entries hold `sid = some 7`, so a
transport handle is not bound to at most one screen identity and two entries
share the same `activeConnection`. -/
theorem C9_counterexample :
    (alGet (run esDup).screens "A").map (fun e => e.sid) = some (some 7)
    ∧ (alGet (run esDup).screens "B").map (fun e => e.sid) = some (some 7) := by
  decide

/-- C9 (amended): registration binds the caller's transport to the given
identity — that entry's `activeConnection` becomes the caller's sid — but
leaves every other entry untouched; in particular a previous binding of the
same transport to a different identity is not removed, so one transport can
be bound to several entries at once. -/
theorem C9_amended (st : KioskState) (reqSid : Sid) (now : Nat) (i : String)
    (res? : Option String) (k : String) (hk : k ≠ i) :
    (alGet (handle_register_screen st reqSid now (some i) res?).1.screens i).map
      (fun e => e.sid) = some (some reqSid)
    ∧ alGet (handle_register_screen st reqSid now (some i) res?).1.screens k
        = alGet st.screens k := by
  cases hget : alGet st.screens i with
  | none =>
      rw [register_new st reqSid now i res? hget]
      exact ⟨by simp [alGet_alSet_self], alGet_alSet_ne _ _ _ _ (Ne.symm hk)⟩
  | some e0 =>
      rw [register_known st reqSid now i res? e0 hget]
      exact ⟨by simp [alGet_alSet_self], alGet_alSet_ne _ _ _ _ (Ne.symm hk)⟩

/-- Witness for `C9_amended`: transport 7 re-registers "B" in the dup state;
"A" is untouched. -/
theorem C9_amended_witness :
    (alGet (handle_register_screen (run esDup) 7 2 (some "B") none).1.screens "B").map
      (fun e => e.sid) = some (some 7)
    ∧ alGet (handle_register_screen (run esDup) 7 2 (some "B") none).1.screens "A"
        = alGet (run esDup).screens "A" :=
  C9_amended (run esDup) 7 2 "B" none "A" (by decide)

/-! ## Claim C10 -/

/-- C10: a rename survives reconnects.  Renaming a known screen to `n` and
then re-registering the same identity leaves the displayName `n` in place;
the registration updates only connected, last_seen, sid and resolution. -/
theorem C10_rename_survives (st : KioskState) (i n : String) (e : ScreenEntry)
    (hget : alGet st.screens i = some e) (reqSid : Sid) (now : Nat)
    (res? : Option String) :
    alGet (handle_register_screen (update_screen st i (some n)).1 reqSid now
        (some i) res?).1.screens i =
      some { name := n, connected := true, last_seen := now, sid := some reqSid,
             resolution := res?.getD "Unknown" } := by
  have h1 : alGet (update_screen st i (some n)).1.screens i =
      some { e with name := n } := by
    simp [update_screen, hget, alGet_alSet_self]
  rw [register_known _ reqSid now i res? _ h1]
  simp [alGet_alSet_self]

/-- Witness for `C10_rename_survives`: rename "A" to "Lobby", re-register
from transport 2 at time 5 with a new resolution. -/
theorem C10_rename_survives_witness :
    alGet (handle_register_screen (update_screen stA "A" (some "Lobby")).1 2 5
        (some "A") (some "800x600")).1.screens "A" =
      some { name := "Lobby", connected := true, last_seen := 5, sid := some 2,
             resolution := (some "800x600").getD "Unknown" } :=
  C10_rename_survives stA "A" "Lobby" entryA (by decide) 2 5 (some "800x600")

end Kiosk
